import Mathlib

/-!
Verification of the WorldView-2 processing pipeline (wv_classify.py).

The development shallowly embeds the parts of `process_file`, `main` and their
helpers that the verified properties concern.  Machine floating-point values
are modelled as exact rationals together with an explicit NaN element
(`Fl := Option ℚ`); trigonometric scene geometry is modelled over the reals.
Functions imported from `matlab_fns` (not part of the sources) are modelled
from their documented meaning, and each such definition is marked
`Modelled from the spec` in its documentation.
-/

namespace WV2

/-! ## Python/numpy value model -/

/-- A numpy floating value: either NaN (`none`) or an exact rational.
The source stores reflectances as float32; the verified properties concern
order relations, branch structure and exact coefficients, which we model with
exact rational arithmetic plus an explicit NaN element. -/
abbrev Fl : Type := Option ℚ

/-- numpy addition: NaN propagates. -/
def fadd : Fl → Fl → Fl
  | some a, some b => some (a + b)
  | _, _ => none

/-- numpy subtraction: NaN propagates. -/
def fsub : Fl → Fl → Fl
  | some a, some b => some (a - b)
  | _, _ => none

/-- numpy multiplication: NaN propagates. -/
def fmul : Fl → Fl → Fl
  | some a, some b => some (a * b)
  | _, _ => none

/-- numpy division: NaN propagates.  Division by zero is mapped to NaN
(float32 division by zero yields an infinity or NaN; no verified property
depends on that case, and every concrete input used below has a nonzero
denominator). -/
def fdiv : Fl → Fl → Fl
  | some a, some b => if b = 0 then none else some (a / b)
  | _, _ => none

/-- numpy strict less-than: any comparison against NaN is false. -/
def flt : Fl → Fl → Bool
  | some a, some b => decide (a < b)
  | _, _ => false

/-- numpy strict greater-than: any comparison against NaN is false. -/
def fgt (x y : Fl) : Bool := flt y x

/-- numpy.isnan on a scalar. -/
def fisnan : Fl → Bool
  | none => true
  | some _ => false

/-- The two kinds of boolean objects compared by the sampling guard of
line 382, `isnan(Rrs[j, k, 0]) is False`: the Python built-in booleans
(`prim`, singleton objects) and numpy bool scalars (`npbool`). -/
inductive PyBoolObj
  | prim (b : Bool)
  | npbool (b : Bool)

/-- The Python `is` operator on boolean objects: object identity.  The
built-in True and False are singletons, identical exactly to themselves; a
numpy bool scalar is a distinct object and is never identical to a Python
built-in boolean. -/
def pyIs : PyBoolObj → PyBoolObj → Bool
  | .prim a, .prim b => a == b
  | .npbool a, .npbool b => a == b
  | _, _ => false

/-- Python runtime errors relevant to the verified properties. -/
inductive PyErr
  | nameError (x : String)
  | typeError (msg : String)
  deriving DecidableEq

/-! ## Scene geometry (lines 154-186 of the source) -/

/-- Python int() applied to a rational: truncation toward zero. -/
def pyInt (q : ℚ) : ℤ := if 0 ≤ q then ⌊q⌋ else -⌊-q⌋

/-- The year/month adjustment of lines 157-163: if the acquisition month is
1 or 2 (January or February), roll into the prior year and add twelve to the
month; otherwise leave year and month unchanged. -/
def rollYearMonth (aqyear aqmonth : ℤ) : ℤ × ℤ :=
  if aqmonth = 1 ∨ aqmonth = 2 then (aqyear - 1, aqmonth + 12) else (aqyear, aqmonth)

/-- Conversion of the acquisition time to UT (line 165). -/
def utOf (aqhour aqminute aqsecond : ℚ) : ℚ := aqhour + aqminute / 60 + aqsecond / 3600

/-- The Julian date of lines 166-172, including the year/month roll and the
century correction B2. -/
def julianDate (aqyear aqmonth aqday : ℤ) (UT : ℚ) : ℚ :=
  let ym := rollYearMonth aqyear aqmonth
  let B1 : ℤ := pyInt ((ym.1 : ℚ) / 100)
  let B2 : ℤ := 2 - B1 + pyInt ((B1 : ℚ) / 4)
  ((pyInt ((365.25 : ℚ) * ((ym.1 : ℚ) + 4716)) : ℚ) +
    (pyInt ((30.6001 : ℚ) * ((ym.2 : ℚ) + 1)) : ℚ) +
    (aqday : ℚ) + UT / 24 + (B2 : ℚ) - 1524.5)

/-- The solar mean anomaly in degrees (lines 173-174). -/
def degsOf (JD : ℚ) : ℚ := 357.529 + 0.98560028 * (JD - 2451545.0)

/-- Modelled from the spec: `cosd` (from `matlab_fns`, not under src/) is the
cosine of an angle given in degrees. -/
noncomputable def cosd (x : ℝ) : ℝ := Real.cos (x * Real.pi / 180)

/-- The Earth-Sun distance factor of line 176. -/
noncomputable def ESd (degs : ℝ) : ℝ :=
  1.00014 - 0.01671 * cosd degs - 0.00014 * cosd (2 * degs)

/-- The condition of the assert on line 178. -/
def esdAssertPasses (e : ℝ) : Prop := 0.983 < e ∧ e < 1.017

/-- The Earth-Sun distance factor always satisfies the assert of line 178:
with both cosines in [-1, 1], ESd lies in [0.98329, 1.01671], strictly
inside (0.983, 1.017). -/
theorem esd_in_assert_range (degs : ℝ) : esdAssertPasses (ESd degs) := by
  have h1 := Real.neg_one_le_cos (degs * Real.pi / 180)
  have h2 := Real.cos_le_one (degs * Real.pi / 180)
  have h3 := Real.neg_one_le_cos (2 * degs * Real.pi / 180)
  have h4 := Real.cos_le_one (2 * degs * Real.pi / 180)
  unfold esdAssertPasses ESd cosd
  constructor <;> nlinarith

/-! ## Reflectance conversion (lines 299-316 of the source) -/

/-- Effective bandwidth per band (line 62). -/
def ebw : Fin 8 → ℚ := ![0.0473, 0.0543, 0.0630, 0.0374, 0.0574, 0.0393, 0.0989, 0.0996]

/-- Band-averaged solar spectral irradiance (lines 65-68). -/
def irr : Fin 8 → ℚ :=
  ![1758.2229, 1974.2416, 1856.4104, 1738.4791, 1559.4555, 1342.0695, 1069.7302, 861.2866]

/-- Center wavelength per band (line 72). -/
def cw : Fin 8 → ℚ := ![0.4273, 0.4779, 0.5462, 0.6078, 0.6588, 0.7237, 0.8313, 0.9080]

/-- Rayleigh phase function factor per band (line 74). -/
def gamma : Fin 8 → ℚ := ![0.0150, 0.0147, 0.0144, 0.0141, 0.0141, 0.0141, 0.0138, 0.0138]

/-- The per-band slope coefficient of lines 299-305:
C1 = pi * ESd^2 * kf / (irr * TZ * TV * ebw). -/
noncomputable def C1 (esd tz tv : ℝ) (kf : Fin 8 → ℝ) (d : Fin 8) : ℝ :=
  (Real.pi * esd ^ 2 * kf d) / ((irr d : ℝ) * tz * tv * (ebw d : ℝ))

/-- The per-band offset coefficient of lines 306-312:
C2 = pi * ray_rad * ESd^2 / (irr * TZ * TV). -/
noncomputable def C2 (esd tz tv : ℝ) (ray_rad : Fin 8 → ℝ) (d : Fin 8) : ℝ :=
  (Real.pi * ray_rad d * esd ^ 2) / ((irr d : ℝ) * tz * tv)

/-- The whole-raster reflectance conversion of line 316, `Rrs = A * C1 - C2`:
numpy broadcasting applies the per-band affine map independently at every
pixel.  Generic in the scalar type so that it stays executable away from the
real-valued coefficients. -/
def computeRrs {α : Type} [Mul α] [Sub α] (A : ℕ → ℕ → Fin 8 → α) (c1 c2 : Fin 8 → α) :
    ℕ → ℕ → Fin 8 → α :=
  fun j k d => A j k d * c1 d - c2 d

/-! ## Bathymetry storage (lines 699-728 and 936-943 of the source) -/

/-- One relative-depth write: the raster cell (j, k) receives dp exactly when
0 < dp < 2; otherwise only the local variable dp is zeroed and the raster is
left unchanged. -/
def bathyStore (bathy : ℕ → ℕ → ℚ) (j k : ℕ) (dp : ℚ) : ℕ → ℕ → ℚ :=
  if 0 < dp ∧ dp < 2 then
    fun a b => if a = j ∧ b = k then dp else bathy a b
  else bathy

/-- The preallocated bathymetry raster (line 659): all zeros. -/
def zeroBathy : ℕ → ℕ → ℚ := fun _ _ => 0

/-- A pipeline run performs a sequence of relative-depth writes against the
zero raster. -/
def applyBathyWrites (ws : List (ℕ × ℕ × ℚ)) : ℕ → ℕ → ℚ :=
  ws.foldl (fun bathy w => bathyStore bathy w.1 w.2.1 w.2.2) zeroBathy

theorem bathyStore_inv (bathy : ℕ → ℕ → ℚ)
    (hb : ∀ j k, bathy j k = 0 ∨ (0 < bathy j k ∧ bathy j k < 2))
    (a b : ℕ) (dp : ℚ) (j k : ℕ) :
    bathyStore bathy a b dp j k = 0 ∨
      (0 < bathyStore bathy a b dp j k ∧ bathyStore bathy a b dp j k < 2) := by
  unfold bathyStore
  by_cases hdp : 0 < dp ∧ dp < 2
  · rw [if_pos hdp]
    by_cases hjk : j = a ∧ k = b
    · rw [if_pos hjk]; exact Or.inr hdp
    · rw [if_neg hjk]; exact hb j k
  · rw [if_neg hdp]; exact hb j k

theorem applyBathyWrites_inv (bathy : ℕ → ℕ → ℚ)
    (hb : ∀ j k, bathy j k = 0 ∨ (0 < bathy j k ∧ bathy j k < 2))
    (ws : List (ℕ × ℕ × ℚ)) (j k : ℕ) :
    (ws.foldl (fun bthy w => bathyStore bthy w.1 w.2.1 w.2.2) bathy) j k = 0 ∨
      (0 < (ws.foldl (fun bthy w => bathyStore bthy w.1 w.2.1 w.2.2) bathy) j k ∧
        (ws.foldl (fun bthy w => bathyStore bthy w.1 w.2.1 w.2.2) bathy) j k < 2) := by
  induction ws generalizing bathy with
  | nil => exact hb j k
  | cons w ws ih =>
      rw [List.foldl_cons]
      exact ih _ (fun a b => bathyStore_inv bathy hb w.1 w.2.1 w.2.2 a b)

/-! ## main argument handling (lines 1115-1130 of the source) -/

/-- The coordinate-system handling of `main` (lines 1115-1123): the
`crd_sys` parameter is overwritten with the constant EPSG:4326 on line 1118
before it is examined, so the subsequent check always takes the accepting
branch and returns coordinate code 4326; the ValueError branch is dead. -/
def mainCrdSysCheck (crd_sys : String) : Except String ℕ :=
  let crd_sys := "EPSG:4326"
  if crd_sys = "EPSG:4326" then Except.ok 4326
  else Except.error ("unknown coord sys: " ++ crd_sys)

/-! ## The sampling pass (lines 361-533 of the source) -/

/-- An 8-band reflectance pixel. -/
abbrev Pixel : Type := Fin 8 → Fl

/-- The sand-and-developed test of lines 386-393 (0-indexed bands):
(B7-B2)/(B7+B2) < 0.65 and B5 > B4 and B4 > B3. -/
def sandTest (p : Pixel) : Bool :=
  flt (fdiv (fsub (p 6) (p 1)) (fadd (p 6) (p 1))) (some (65/100)) &&
  fgt (p 4) (p 3) && fgt (p 3) (p 2)

/-- The vegetation test of lines 397-403: (B8-B5)/(B8+B5) > 0.6 and B7 > B3. -/
def vegTest (p : Pixel) : Bool :=
  fgt (fdiv (fsub (p 7) (p 4)) (fadd (p 7) (p 4))) (some (6/10)) &&
  fgt (p 6) (p 2)

/-- The shadow filter inside the vegetation branch, lines 404-409. -/
def shadowFilterTest (p : Pixel) : Bool :=
  fgt (fdiv (fsub (p 6) (p 1)) (fadd (p 6) (p 1))) (some (20/100))

/-- The glint-free-water test of lines 424-434: B8 < 0.11 and all eight
bands positive. -/
def waterTest (p : Pixel) : Bool :=
  flt (p 7) (some (11/100)) && fgt (p 0) (some 0) && fgt (p 1) (some 0) &&
  fgt (p 2) (some 0) && fgt (p 3) (some 0) && fgt (p 4) (some 0) &&
  fgt (p 5) (some 0) && fgt (p 6) (some 0) && fgt (p 7) (some 0)

/-- The decreasing-ordering glinted-water test (variant A), lines 453-459 and
477-483. -/
def glintATest (p : Pixel) : Bool :=
  flt (p 7) (p 6) && flt (p 5) (p 6) && flt (p 5) (p 4) &&
  flt (p 3) (p 4) && flt (p 3) (p 2)

/-- The increasing-ordering glinted-water test (variant B), lines 463-469 and
489-495. -/
def glintBTest (p : Pixel) : Bool :=
  fgt (p 7) (p 6) && fgt (p 5) (p 6) && fgt (p 5) (p 4) &&
  fgt (p 3) (p 4) && fgt (p 3) (p 2)

/-- The five first-level sampling branches, in the priority order in which
the source checks them. -/
inductive SBranch
  | sandDev
  | veg
  | waterGF
  | glintA
  | glintB
  deriving DecidableEq

/-- Priority position of each sampling branch. -/
def sIdx : SBranch → ℕ
  | .sandDev => 0
  | .veg => 1
  | .waterGF => 2
  | .glintA => 3
  | .glintB => 4

/-- The entry test of each sampling branch. -/
def sTest : SBranch → Pixel → Bool
  | .sandDev => sandTest
  | .veg => vegTest
  | .waterGF => waterTest
  | .glintA => glintATest
  | .glintB => glintBTest

/-- The branch selected for a processed pixel: the if/elif chain of lines
386-500 evaluates the tests in priority order and fires the body of the
first test that matches. -/
def firedBranch (p : Pixel) : Option SBranch :=
  if sandTest p then some .sandDev
  else if vegTest p then some .veg
  else if waterTest p then some .waterGF
  else if glintATest p then some .glintA
  else if glintBTest p then some .glintB
  else none

/-- The mutable state threaded through the sampling pass (lines 366-379).
The field `y` of the source is never read or written after initialisation and
is omitted.  The water table is the preallocated sz_ar x 9 zero array of line
378, modelled as a total function from row index to row (array bounds are not
modelled; every verified property stays within bounds). -/
structure SampleState where
  num_pix : ℕ
  c_val : List Fl
  b : ℕ
  t : ℕ
  u : ℕ
  v : ℕ
  sum_SD : List Fl
  sum_veg : List Fl
  sum_veg2 : List Fl
  dead_veg : List Fl
  sum_water_rrs : List Fl
  water : ℕ → Fin 9 → Fl

/-- The initial sampler state of lines 366-379: b = t = 1, u = v = 0,
sum_veg = [0], dead_veg = [0], all other accumulators empty, water table all
zeros. -/
def initState : SampleState where
  num_pix := 0
  c_val := []
  b := 1
  t := 1
  u := 0
  v := 0
  sum_SD := []
  sum_veg := [some 0]
  sum_veg2 := []
  dead_veg := [some 0]
  sum_water_rrs := []
  water := fun _ _ => some 0

/-- The slice assignment `water[u, 0:7] = ...` of lines 435, 484 and 498:
the Python slice 0:7 covers columns 0 through 6 only, so just the first seven
band values reach the row; column 7 keeps its previous content.  (The source
additionally wraps the 8-element slice in float(), which at runtime would
itself raise TypeError; the elementwise copy modelled here is the closest
defined behaviour and is what exhibits the slice bound.) -/
def writeBands7 (w : ℕ → Fin 9 → Fl) (u : ℕ) (p : Pixel) : ℕ → Fin 9 → Fl :=
  fun r i => if h : r = u ∧ i.val < 7 then p ⟨i.val, by omega⟩ else w r i

/-- The flag assignment `water[u, 8] = c` of lines 462, 472, 475, 486
and 497. -/
def writeFlag (w : ℕ → Fin 9 → Fl) (u : ℕ) (c : ℚ) : ℕ → Fin 9 → Fl :=
  fun r i => if r = u ∧ i.val = 8 then some c else w r i

/-- Modelled from the spec: `rdivide` (from `matlab_fns`, not under src/) is
elementwise division; applied on lines 436-439 to the first five bands it
gives the subsurface ratio  band / (zeta + G * band)  with G = 1.56. -/
def waterRrsOf (zeta : Fl) (p : Pixel) (i : Fin 5) : Fl :=
  fdiv (p ⟨i.val, by omega⟩) (fadd zeta (fmul (some (156/100)) (p ⟨i.val, by omega⟩)))

/-- The body of the sampling pass for one processed pixel, lines 383-500:
count the pixel, record its coastal-band value, then run the five-branch
if/elif chain.  In the glint-free-water branch the row pointer u is
incremented on line 450 before the glint flag is written on line 462, 472 or
475, so the flag assignment targets row u+1, not the row that received the
band values; in the two pure-glint branches the flag is written before the
increment. -/
def bodyStep (zeta : Fl) (s : SampleState) (p : Pixel) : SampleState :=
  let s := { s with num_pix := s.num_pix + 1, c_val := s.c_val ++ [p 0] }
  if sandTest p then
    { s with sum_SD := s.sum_SD ++ [fadd (p 5) (p 6)], b := s.b + 1 }
  else if vegTest p then
    if shadowFilterTest p then
      { s with
        sum_veg := s.sum_veg ++ [fadd (p 2) (p 3)]
        sum_veg2 := s.sum_veg2 ++ [p 6]
        dead_veg := s.dead_veg ++
          [fsub (fadd (fdiv (fsub (p 6) (p 3)) (some 3)) (p 3)) (p 4)]
        t := s.t + 1 }
    else s
  else if waterTest p then
    let w1 := writeBands7 s.water s.u p
    let swr :=
      if fgt (waterRrsOf zeta p 3) (waterRrsOf zeta p 1) &&
          flt (waterRrsOf zeta p 3) (some (12/100)) &&
          flt (waterRrsOf zeta p 4) (waterRrsOf zeta p 2) then
        s.sum_water_rrs ++ [fadd (waterRrsOf zeta p 2) (waterRrsOf zeta p 3)]
      else s.sum_water_rrs
    let u1 := s.u + 1
    if glintATest p then
      { s with water := writeFlag w1 u1 2, sum_water_rrs := swr, u := u1, v := s.v + 1 }
    else if glintBTest p then
      { s with water := writeFlag w1 u1 3, sum_water_rrs := swr, u := u1, v := s.v + 1 }
    else
      { s with water := writeFlag w1 u1 1, sum_water_rrs := swr, u := u1 }
  else if glintATest p then
    { s with water := writeFlag (writeBands7 s.water s.u p) s.u 2, u := s.u + 1, v := s.v + 1 }
  else if glintBTest p then
    { s with water := writeFlag (writeBands7 s.water s.u p) s.u 3, u := s.u + 1, v := s.v + 1 }
  else s

/-- The guard of line 382, `if isnan(Rrs[j, k, 0]) is False:`.  numpy.isnan
returns a numpy bool scalar, and `is` tests object identity against the
Python built-in False, so the guard is false for every pixel value. -/
def sampleGuard (x : Fl) : Bool := pyIs (.npbool (fisnan x)) (.prim false)

/-- One iteration of the sampling loop: the body runs only when the guard of
line 382 holds. -/
def sampleStep (zeta : Fl) (s : SampleState) (p : Pixel) : SampleState :=
  if sampleGuard (p 0) then bodyStep zeta s p else s

/-- The full sampling pass over the image, lines 380-525, in row-major
order. -/
def samplePass (zeta : Fl) (img : List Pixel) : SampleState :=
  img.foldl (sampleStep zeta) initState

/-! ## The post-sampling prologue (lines 527-541 of the source) -/

/-- The local names assigned in `process_file` by the time control reaches
line 533 (parameters, scene geometry, coefficient and sampler variables,
n_water and n_glInted from lines 527-528, and the module name bound by the
inline import of line 530).  The name read by line 533, `n_glinted`, is
never assigned anywhere in the function; only `n_glInted`, with a capital I,
is. -/
def localsAtLine533 : List String :=
  ["X", "Z", "loc_out", "loc", "coor_sys", "d_t", "Rrs_write",
   "fname", "id", "A", "R", "szA", "szB", "aqmonth", "aqyear", "aqhour",
   "aqminute", "aqsecond", "sunaz", "sunel", "satel", "sensaz", "aqday",
   "satview", "kf", "cl_cov", "year", "month", "UT", "B1", "B2", "JD", "D",
   "degs", "ESd", "inc_ang", "TZ", "TV", "az", "thetaplus", "Pr", "d", "tau",
   "w_0", "ray_rad", "G", "na", "nw", "inc_ang2", "trans_aw", "trans_wa",
   "pf1", "pf2", "zeta", "sz", "n_bands", "C1", "C2", "Rrs", "b", "t", "u",
   "y", "v", "sum_SD", "num_pix", "sum_veg", "sum_veg2", "dead_veg",
   "sum_water_rrs", "sz_ar", "water", "c_val", "j", "k", "water_rrs",
   "n_water", "n_glInted", "pdb"]

/-- Python name resolution at line 533: a read of a name that is not bound
raises NameError. -/
def readName (x : String) : Except PyErr Unit :=
  if x ∈ localsAtLine533 then Except.ok () else Except.error (PyErr.nameError x)

/-- Observable milestones of the d_t > 0 path of `process_file`. -/
inductive PipelineEvent
  | debuggerBreakpoint
  | glintEstimation
  | bathymetry
  | classification
  | postRrsOutput
  deriving DecidableEq

/-- Lines 530-534: immediately after the sampling loop the source invokes
the interactive debugger (line 530) and then prints n_water (bound) and
n_glinted (unbound, line 533-534).  When the second read fails the function
terminates with that error and none of the later stages run. -/
def postSampling : List PipelineEvent × Except PyErr Unit :=
  match readName "n_water", readName "n_glinted" with
  | Except.ok _, Except.ok _ =>
      ([PipelineEvent.debuggerBreakpoint, PipelineEvent.glintEstimation,
        PipelineEvent.bathymetry, PipelineEvent.classification,
        PipelineEvent.postRrsOutput], Except.ok ())
  | Except.ok _, Except.error e => ([PipelineEvent.debuggerBreakpoint], Except.error e)
  | Except.error e, _ => ([PipelineEvent.debuggerBreakpoint], Except.error e)

/-- The part of `process_file` guarded by `if d_t > 0:` (line 361): run the
sampling pass, then the post-sampling prologue.  With d_t = 0 the function
ends normally after the Rrs conversion. -/
def processFileAfterRrs (zeta : Fl) (d_t : ℕ) (img : List Pixel) :
    List PipelineEvent × Except PyErr Unit :=
  if 0 < d_t then
    let _s := samplePass zeta img
    postSampling
  else ([], Except.ok ())

/-! ## Glint estimation (lines 535-575 of the source) -/

/-- Column i of the water table (NaN outside the nine columns; every use
below stays within bounds). -/
def rowsCol (w : List (Fin 9 → Fl)) (i : ℕ) : List Fl :=
  w.map (fun r => if h : i < 9 then r ⟨i, h⟩ else none)

/-- Line 535, `water[water[:, 0] == 0] = numpy.nan`: every row whose first
column is zero is replaced by an all-NaN row. -/
def maskWater (w : List (Fin 9 → Fl)) : List (Fin 9 → Fl) :=
  w.map (fun r => if r 0 = some 0 then (fun _ => none) else r)

/-- Sum of a list of floating values (NaN propagates). -/
def sumFl (l : List Fl) : Fl := l.foldl fadd (some 0)

/-- Modelled from the spec: `mldivide` (from `matlab_fns`, not under src/)
is the MATLAB backslash for two column vectors, the no-intercept
least-squares slope  sum(x*y) / sum(x^2). -/
def mldivide (x y : List Fl) : Fl :=
  fdiv (sumFl (List.zipWith fmul x y)) (sumFl (x.map (fun a => fmul a a)))

/-- The regression of one loop iteration of lines 555-568: band b is fitted
against NIR2 (column 7) when b is 0, 3 or 5, and against NIR1 (column 6)
otherwise. -/
def slopeFor (w : List (Fin 9 → Fl)) (b : ℕ) : Fl :=
  if b = 0 ∨ b = 3 ∨ b = 5 then mldivide (rowsCol w b) (rowsCol w 7)
  else mldivide (rowsCol w b) (rowsCol w 6)

/-- The value of slope1 after the loop of lines 555-568: each iteration
overwrites the previous one, so what remains is the b = 5 regression. -/
def slope1Final (w : List (Fin 9 → Fl)) : Fl :=
  (List.range 6).foldl (fun _ b => slopeFor w b) none

/-- E_glint as the source computes it, lines 554-570: E_glint = [0]*6, the
loop of lines 555-568 computes slope1 six times discarding all but the last,
and the assignment `E_glint[b] = float(slope1)` on line 569 sits at the
indentation level of the for statement, so it runs once, after the loop,
with b = 5.  Only index 5 receives a slope; indices 0 through 4 keep 0. -/
def E_glint (w : List (Fin 9 → Fl)) : List Fl :=
  (List.replicate 6 (some (0:ℚ))).set 5 (slope1Final w)

/-- The glint vector as the spec describes it (for comparison with
`E_glint`): every band b < 6 of the designated subset receives its own
regression slope. -/
def E_glint_spec (w : List (Fin 9 → Fl)) : List Fl :=
  (List.range 6).map (fun b => slopeFor w b)

/-- The deglinting decision of line 545: a correction vector is produced
exactly when v > 0.25 * u. -/
def glintVectorProduced (u v : ℕ) : Bool := decide ((v : ℚ) > 25/100 * (u : ℚ))

/-! ## Claim theorems -/

/-- C1: for every invocation of process_file with pipeline-depth selector
d_t > 0, and regardless of the image contents, the code invokes the
interactive debugger immediately after the sampling pass and then reads the
undefined name n_glinted, terminating with a NameError before any glint
estimation, bathymetry, classification, or post-Rrs output happens. -/
theorem claim_C1 (zeta : Fl) (d_t : ℕ) (img : List Pixel) (h : 0 < d_t) :
    processFileAfterRrs zeta d_t img =
      ([PipelineEvent.debuggerBreakpoint], Except.error (PyErr.nameError ("n_glinted"))) := by
  unfold processFileAfterRrs
  rw [if_pos h]
  rfl

/-- Witness for C1 at d_t = 1 on an empty image. -/
theorem claim_C1_witness :
    processFileAfterRrs (some (52/100)) 1 [] =
      ([PipelineEvent.debuggerBreakpoint], Except.error (PyErr.nameError ("n_glinted"))) :=
  claim_C1 (some (52/100)) 1 [] (by norm_num)

/-- The sampling guard of line 382 never holds: a numpy bool is never
identical to the Python built-in False. -/
theorem sampleGuard_false (x : Fl) : sampleGuard x = false := by
  unfold sampleGuard pyIs
  cases fisnan x <;> rfl

/-- One sampling-loop iteration leaves the state unchanged. -/
theorem sampleStep_id (zeta : Fl) (s : SampleState) (p : Pixel) :
    sampleStep zeta s p = s := by
  unfold sampleStep
  rw [sampleGuard_false]
  rfl

/-- A single-pixel image whose coastal band is 1.0 (not NaN). -/
def pixAllOne : Pixel := fun _ => some 1

/-- C2 fails on the code: because the guard `isnan(...) is False` of line
382 compares a numpy bool against the Python False singleton by identity, it
is false for every pixel, so the sampling pass body never runs: num_pix
stays 0 and c_val stays empty for every image, in particular for a one-pixel
image whose band-0 value 1.0 is not NaN, where the claim requires
num_pix = 1 and c_val = [1.0]. -/
theorem claim_C2 :
    (∀ (zeta : Fl) (img : List Pixel), samplePass zeta img = initState) ∧
    (samplePass (some (52/100)) [pixAllOne]).num_pix = 0 ∧
    (samplePass (some (52/100)) [pixAllOne]).c_val = [] ∧
    fisnan (pixAllOne 0) = false := by
  have hall : ∀ (zeta : Fl) (img : List Pixel), samplePass zeta img = initState := by
    intro zeta img
    unfold samplePass
    induction img with
    | nil => rfl
    | cons p tl ih => rw [List.foldl_cons, sampleStep_id]; exact ih
  exact ⟨hall, by rw [hall]; rfl, by rw [hall]; rfl, rfl⟩

/-- C4 as stated is false: a date far outside any plausible calendar year
does not trigger the fatal validation failure.  For the acquisition date
9999-06-15 12:00:00 the computed Earth-Sun distance factor still satisfies
the assert of line 178, so the scene is not rejected. -/
theorem claim_C4_counterexample :
    esdAssertPasses (ESd (degsOf (julianDate 9999 6 15 (utOf 12 0 0)))) :=
  esd_in_assert_range _

/-- C4 (amended): for every acquisition date - year, month, day and time of
day unrestricted, hence including dates far outside any plausible calendar
year - the computed Earth-Sun distance factor lies strictly inside
(0.983, 1.017), so it lies in [0.983, 1.017], the assert of line 178 passes,
and processing always proceeds; no input can trigger the fatal validation
failure. -/
theorem claim_C4 (aqyear aqmonth aqday : ℤ) (UT : ℚ) :
    esdAssertPasses (ESd (degsOf (julianDate aqyear aqmonth aqday UT))) :=
  esd_in_assert_range _

/-- C5: every value of a bathymetry raster obtained from the zero raster by
any sequence of relative-depth writes is either 0 or lies strictly between 0
and 2; moreover a write whose dp is negative, exactly 0, exactly 2, or
larger leaves the raster unchanged, so such a pixel keeps depth 0. -/
theorem claim_C5 :
    (∀ (ws : List (ℕ × ℕ × ℚ)) (j k : ℕ),
      applyBathyWrites ws j k = 0 ∨
        (0 < applyBathyWrites ws j k ∧ applyBathyWrites ws j k < 2)) ∧
    (∀ (bathy : ℕ → ℕ → ℚ) (j k : ℕ) (dp : ℚ),
      dp ≤ 0 ∨ 2 ≤ dp → bathyStore bathy j k dp = bathy) := by
  constructor
  · intro ws j k
    exact applyBathyWrites_inv zeroBathy (fun _ _ => Or.inl rfl) ws j k
  · intro bathy j k dp h
    unfold bathyStore
    rw [if_neg]
    rintro ⟨h1, h2⟩
    rcases h with h | h <;> linarith

/-- Witness for C5: a write of exactly 2, exactly 0, a negative value and a
value above 2 each leave the zero raster unchanged, and a raster built from
a mid-range write satisfies the invariant. -/
theorem claim_C5_witness :
    bathyStore zeroBathy 0 0 2 = zeroBathy ∧
    bathyStore zeroBathy 0 0 0 = zeroBathy ∧
    bathyStore zeroBathy 0 0 (-1) = zeroBathy ∧
    bathyStore zeroBathy 0 0 (5/2) = zeroBathy ∧
    (applyBathyWrites [(0, 0, (1/2 : ℚ))] 0 0 = 0 ∨
      (0 < applyBathyWrites [(0, 0, (1/2 : ℚ))] 0 0 ∧
        applyBathyWrites [(0, 0, (1/2 : ℚ))] 0 0 < 2)) :=
  ⟨claim_C5.2 zeroBathy 0 0 2 (Or.inr le_rfl),
   claim_C5.2 zeroBathy 0 0 0 (Or.inl le_rfl),
   claim_C5.2 zeroBathy 0 0 (-1) (Or.inl (by norm_num)),
   claim_C5.2 zeroBathy 0 0 (5/2) (Or.inr (by norm_num)),
   claim_C5.1 [(0, 0, (1/2 : ℚ))] 0 0⟩

/-- C8: with the per-band coefficients C1 and C2 of lines 299-312, every
pixel and band of the raster produced by line 316 equals
raw * C1 - C2 exactly, and the value at a pixel depends on the input raster
only through that single raw count (no per-pixel no-data test), so identical
inputs give identical outputs. -/
theorem claim_C8 (esd tz tv : ℝ) (kf ray_rad : Fin 8 → ℝ)
    (A : ℕ → ℕ → Fin 8 → ℝ) (j k : ℕ) (d : Fin 8) :
    computeRrs A (C1 esd tz tv kf) (C2 esd tz tv ray_rad) j k d =
        A j k d * C1 esd tz tv kf d - C2 esd tz tv ray_rad d ∧
    computeRrs A (C1 esd tz tv kf) (C2 esd tz tv ray_rad) j k d =
        computeRrs (fun _ _ _ => A j k d) (C1 esd tz tv kf) (C2 esd tz tv ray_rad) j k d :=
  ⟨rfl, rfl⟩

/-- C9 as stated is false: the source rolls January and February into the
prior year, not December and January.  December 2017 is left unchanged
(the claim requires it rolled into 2016), and February 2017 is rolled to
(2016, 14) (the claim requires it unchanged). -/
theorem claim_C9_counterexample :
    rollYearMonth 2017 12 = (2017, 12) ∧ (rollYearMonth 2017 12).1 ≠ 2016 ∧
    rollYearMonth 2017 2 = (2016, 14) ∧ rollYearMonth 2017 2 ≠ (2017, 2) := by
  refine ⟨by norm_num [rollYearMonth], ?_, by norm_num [rollYearMonth], ?_⟩ <;>
    norm_num [rollYearMonth]

/-- C9 (amended): the Julian-date computation rolls acquisition dates in
January and February into the prior year (adding the conventional two-month
offset, month + 12), and leaves the year and month of all other acquisition
dates, December included, unchanged. -/
theorem claim_C9 (y m : ℤ) :
    (m = 1 ∨ m = 2 → rollYearMonth y m = (y - 1, m + 12)) ∧
    (¬(m = 1 ∨ m = 2) → rollYearMonth y m = (y, m)) := by
  constructor <;> intro h <;> simp [rollYearMonth, h]

/-- Witness for C9 at the concrete date January 2020. -/
theorem claim_C9_witness : rollYearMonth 2020 1 = (2019, 13) :=
  (claim_C9 2020 1).1 (Or.inl rfl)

/-- C10 fails on the code: main overwrites its coordinate-system argument
with the constant EPSG:4326 before checking it (line 1118), so any value,
for example EPSG:3857, is silently accepted and processing proceeds with
code 4326 instead of raising the configuration error; indeed every argument
value is accepted. -/
theorem claim_C10 :
    mainCrdSysCheck ("EPSG:3857") = Except.ok 4326 ∧
    (∀ s : String, mainCrdSysCheck s = Except.ok 4326) :=
  ⟨rfl, fun _ => rfl⟩

/-- A synthetic water-table row: band values r in columns 0-6, 2r in the
NIR2 column 7, glint flag 2 in column 8. -/
def waterRow (r : ℚ) : Fin 9 → Fl :=
  fun i => if i.val = 8 then some 2 else if i.val = 7 then some (2 * r) else some r

/-- A four-row all-glinted water table: rows for r = 1, 2, 3, 4. -/
def waterTable4 : List (Fin 9 → Fl) := [waterRow 1, waterRow 2, waterRow 3, waterRow 4]

/-- C3 fails on the code: with u = 4 water rows, all v = 4 glint-tagged
(above the 25 percent boundary, so the vector is produced), the assignment
`E_glint[b] = float(slope1)` of line 569 sits outside the loop, so the
produced vector is [0, 0, 0, 0, 0, 2]: only index 5 carries a regression
slope, while the per-band regressions the claim requires are
[2, 1, 1, 2, 1, 2]. -/
theorem maskWater_table4 : maskWater waterTable4 = waterTable4 := by
  norm_num [maskWater, waterTable4, waterRow]

theorem rowsCol_table4_lo (i : ℕ) (h1 : i < 7) :
    rowsCol waterTable4 i = [some 1, some 2, some 3, some 4] := by
  have h8 : ¬(i = 8) := by omega
  have h7 : ¬(i = 7) := by omega
  have h9 : i < 9 := by omega
  simp [rowsCol, waterTable4, waterRow, h9, h8, h7]

theorem rowsCol_table4_7 : rowsCol waterTable4 7 = [some 2, some 4, some 6, some 8] := by
  norm_num [rowsCol, waterTable4, waterRow]

theorem mldivide_four (a1 a2 a3 a4 b1 b2 b3 b4 : ℚ)
    (h : ¬(a1 * a1 + a2 * a2 + a3 * a3 + a4 * a4 = 0)) :
    mldivide [some a1, some a2, some a3, some a4] [some b1, some b2, some b3, some b4] =
      some ((a1 * b1 + a2 * b2 + a3 * b3 + a4 * b4) /
        (a1 * a1 + a2 * a2 + a3 * a3 + a4 * a4)) := by
  simp [mldivide, sumFl, fadd, fmul, fdiv, List.zipWith, List.foldl, h]

theorem slopeFor_table4 (b : ℕ) (hb : b < 6) :
    slopeFor waterTable4 b = if b = 0 ∨ b = 3 ∨ b = 5 then some 2 else some 1 := by
  by_cases hcase : b = 0 ∨ b = 3 ∨ b = 5
  · rw [slopeFor, if_pos hcase, if_pos hcase, rowsCol_table4_lo b (by omega),
      rowsCol_table4_7, mldivide_four _ _ _ _ _ _ _ _ (by norm_num)]
    norm_num
  · have hb7 : b < 7 := by omega
    rw [slopeFor, if_neg hcase, if_neg hcase, rowsCol_table4_lo b hb7,
      rowsCol_table4_lo 6 (by omega), mldivide_four _ _ _ _ _ _ _ _ (by norm_num)]
    norm_num

/-- C3 fails on the code: with u = 4 water rows, all v = 4 glint-tagged
(above the 25 percent boundary, so the vector is produced), the assignment
`E_glint[b] = float(slope1)` of line 569 sits outside the loop, so the
produced vector is [0, 0, 0, 0, 0, 2]: only index 5 carries a regression
slope, while the per-band regressions the claim requires are
[2, 1, 1, 2, 1, 2]. -/
theorem claim_C3 :
    glintVectorProduced 4 4 = true ∧
    E_glint (maskWater waterTable4) =
      [some 0, some 0, some 0, some 0, some 0, some 2] ∧
    E_glint_spec (maskWater waterTable4) =
      [some 2, some 1, some 1, some 2, some 1, some 2] ∧
    E_glint (maskWater waterTable4) ≠ E_glint_spec (maskWater waterTable4) := by
  have h2 : E_glint (maskWater waterTable4) =
      [some 0, some 0, some 0, some 0, some 0, some 2] := by
    rw [maskWater_table4, E_glint, slope1Final]
    rw [show List.range 6 = [0, 1, 2, 3, 4, 5] from rfl]
    simp only [List.foldl]
    rw [slopeFor_table4 5 (by omega)]
    rfl
  have h3 : E_glint_spec (maskWater waterTable4) =
      [some 2, some 1, some 1, some 2, some 1, some 2] := by
    rw [maskWater_table4, E_glint_spec]
    rw [show List.range 6 = [0, 1, 2, 3, 4, 5] from rfl]
    simp only [List.map]
    rw [slopeFor_table4 0 (by omega), slopeFor_table4 1 (by omega),
      slopeFor_table4 2 (by omega), slopeFor_table4 3 (by omega),
      slopeFor_table4 4 (by omega), slopeFor_table4 5 (by omega)]
    norm_num
  refine ⟨by norm_num [glintVectorProduced], h2, h3, ?_⟩
  rw [h2, h3]
  intro hcontra
  exact absurd (List.head_eq_of_cons_eq hcontra) (by norm_num)

/-- A concrete glint-free water pixel: bands
[0.02, 0.02, 0.02, 0.03, 0.02, 0.02, 0.02, 0.05].  Band 8 is below 0.11, all
bands are positive, the sand and vegetation tests fail, and neither glint
ordering holds, so the sampling pass routes it to the glint-free-water
branch with flag 1. -/
def pixW : Pixel := fun i =>
  if i.val = 3 then some (3/100) else if i.val = 7 then some (5/100) else some (2/100)

theorem pixW_0 : pixW 0 = some (2/100) := rfl
theorem pixW_1 : pixW 1 = some (2/100) := rfl
theorem pixW_2 : pixW 2 = some (2/100) := rfl
theorem pixW_3 : pixW 3 = some (3/100) := rfl
theorem pixW_4 : pixW 4 = some (2/100) := rfl
theorem pixW_5 : pixW 5 = some (2/100) := rfl
theorem pixW_6 : pixW 6 = some (2/100) := rfl
theorem pixW_7 : pixW 7 = some (5/100) := rfl

theorem sandTest_pixW : sandTest pixW = false := by
  norm_num [sandTest, flt, fgt, fsub, fadd, fdiv,
    pixW_1, pixW_2, pixW_3, pixW_4, pixW_6]

theorem vegTest_pixW : vegTest pixW = false := by
  norm_num [vegTest, flt, fgt, fsub, fadd, fdiv, pixW_2, pixW_4, pixW_6, pixW_7]

theorem waterTest_pixW : waterTest pixW = true := by
  norm_num [waterTest, flt, fgt, pixW_0, pixW_1, pixW_2, pixW_3, pixW_4,
    pixW_5, pixW_6, pixW_7]

theorem glintATest_pixW : glintATest pixW = false := by
  norm_num [glintATest, flt, pixW_2, pixW_3, pixW_4, pixW_5, pixW_6, pixW_7]

theorem glintBTest_pixW : glintBTest pixW = false := by
  norm_num [glintBTest, flt, fgt, pixW_2, pixW_3, pixW_4, pixW_5, pixW_6, pixW_7]

theorem finval5_1 : ((1 : Fin 5)).val = 1 := rfl
theorem finval5_2 : ((2 : Fin 5)).val = 2 := rfl
theorem finval5_3 : ((3 : Fin 5)).val = 3 := rfl
theorem finval5_4 : ((4 : Fin 5)).val = 4 := rfl

theorem waterRrsOf_pixW_1 : waterRrsOf (some (52/100)) pixW 1 = some (25/689) := by
  rw [waterRrsOf]
  norm_num [finval5_1, pixW, flt, fadd, fmul, fdiv]

theorem waterRrsOf_pixW_2 : waterRrsOf (some (52/100)) pixW 2 = some (25/689) := by
  rw [waterRrsOf]
  norm_num [finval5_2, pixW, flt, fadd, fmul, fdiv]

theorem waterRrsOf_pixW_3 : waterRrsOf (some (52/100)) pixW 3 = some (75/1417) := by
  rw [waterRrsOf]
  norm_num [finval5_3, pixW, flt, fadd, fmul, fdiv]

theorem waterRrsOf_pixW_4 : waterRrsOf (some (52/100)) pixW 4 = some (25/689) := by
  rw [waterRrsOf]
  norm_num [finval5_4, pixW, flt, fadd, fmul, fdiv]

theorem qualityTest_pixW :
    (fgt (waterRrsOf (some (52/100)) pixW 3) (waterRrsOf (some (52/100)) pixW 1) &&
      flt (waterRrsOf (some (52/100)) pixW 3) (some (12/100)) &&
      flt (waterRrsOf (some (52/100)) pixW 4) (waterRrsOf (some (52/100)) pixW 2)) = false := by
  rw [waterRrsOf_pixW_1, waterRrsOf_pixW_2, waterRrsOf_pixW_3, waterRrsOf_pixW_4]
  norm_num [flt, fgt]

theorem finval9_0 : ((0 : Fin 9)).val = 0 := rfl
theorem finval9_7 : ((7 : Fin 9)).val = 7 := rfl
theorem finval9_8 : ((8 : Fin 9)).val = 8 := rfl

theorem bodyStep_pixW_water :
    (bodyStep (some (52/100)) initState pixW).water =
      writeFlag (writeBands7 initState.water 0 pixW) 1 1 := by
  rw [bodyStep, sandTest_pixW, vegTest_pixW, waterTest_pixW, glintATest_pixW,
    glintBTest_pixW, qualityTest_pixW]
  dsimp only [initState]
  rfl

theorem bodyStep_pixW_u : (bodyStep (some (52/100)) initState pixW).u = 1 := by
  rw [bodyStep, sandTest_pixW, vegTest_pixW, waterTest_pixW, glintATest_pixW,
    glintBTest_pixW, qualityTest_pixW]
  dsimp only [initState]
  rfl

/-- C6 fails on the code on a single glint-free water pixel: the appended
row 0 receives only the first seven band values (the NIR2 column 7 keeps its
initial 0 even though the pixel's band 8 value is 0.05), and because the row
pointer is incremented before the flag assignment, the glint flag 1 lands on
row 1 while the appended row 0 keeps flag 0.  Only the row-pointer advance
(u = 1 after the pixel) behaves as claimed. -/
theorem claim_C6 :
    firedBranch pixW = some SBranch.waterGF ∧
    (bodyStep (some (52/100)) initState pixW).u = 1 ∧
    (bodyStep (some (52/100)) initState pixW).water 0 0 = some (2/100) ∧
    (bodyStep (some (52/100)) initState pixW).water 0 7 = some 0 ∧
    pixW 7 = some (5/100) ∧
    (bodyStep (some (52/100)) initState pixW).water 0 8 = some 0 ∧
    (bodyStep (some (52/100)) initState pixW).water 1 8 = some 1 := by
  refine ⟨?_, bodyStep_pixW_u, ?_, ?_, pixW_7, ?_, ?_⟩
  · rw [firedBranch, sandTest_pixW, vegTest_pixW, waterTest_pixW]
    rfl
  · rw [bodyStep_pixW_water]
    norm_num [writeFlag, writeBands7, initState, finval9_0, finval9_7, finval9_8, pixW]
  · rw [bodyStep_pixW_water]
    norm_num [writeFlag, writeBands7, initState, finval9_0, finval9_7, finval9_8]
  · rw [bodyStep_pixW_water]
    norm_num [writeFlag, writeBands7, initState, finval9_0, finval9_7, finval9_8]
  · rw [bodyStep_pixW_water]
    norm_num [writeFlag, writeBands7, initState, finval9_0, finval9_7, finval9_8]

theorem fired_sand_iff (p : Pixel) :
    firedBranch p = some SBranch.sandDev ↔ sandTest p = true := by
  unfold firedBranch
  cases hs : sandTest p <;> cases hv : vegTest p <;> cases hw : waterTest p <;>
    cases hga : glintATest p <;> cases hgb : glintBTest p <;> simp

theorem fired_veg_iff (p : Pixel) :
    firedBranch p = some SBranch.veg ↔ (sandTest p = false ∧ vegTest p = true) := by
  unfold firedBranch
  cases hs : sandTest p <;> cases hv : vegTest p <;> cases hw : waterTest p <;>
    cases hga : glintATest p <;> cases hgb : glintBTest p <;> simp

theorem fired_water_iff (p : Pixel) :
    firedBranch p = some SBranch.waterGF ↔
      (sandTest p = false ∧ vegTest p = false ∧ waterTest p = true) := by
  unfold firedBranch
  cases hs : sandTest p <;> cases hv : vegTest p <;> cases hw : waterTest p <;>
    cases hga : glintATest p <;> cases hgb : glintBTest p <;> simp

theorem fired_glintA_iff (p : Pixel) :
    firedBranch p = some SBranch.glintA ↔
      (sandTest p = false ∧ vegTest p = false ∧ waterTest p = false ∧
        glintATest p = true) := by
  unfold firedBranch
  cases hs : sandTest p <;> cases hv : vegTest p <;> cases hw : waterTest p <;>
    cases hga : glintATest p <;> cases hgb : glintBTest p <;> simp

theorem fired_glintB_iff (p : Pixel) :
    firedBranch p = some SBranch.glintB ↔
      (sandTest p = false ∧ vegTest p = false ∧ waterTest p = false ∧
        glintATest p = false ∧ glintBTest p = true) := by
  unfold firedBranch
  cases hs : sandTest p <;> cases hv : vegTest p <;> cases hw : waterTest p <;>
    cases hga : glintATest p <;> cases hgb : glintBTest p <;> simp

/-- C7: for every 8-band pixel processed by the sampling pass, a branch
fires exactly when its own test holds and the tests of all higher-priority
branches fail: the if/elif chain checks sand/developed, vegetation,
glint-free water, glinted variant A and glinted variant B in that order and
stops at the first match.  Since `firedBranch` returns at most one branch,
at most one of the five branch bodies runs for any pixel, and zero when no
test matches. -/
theorem claim_C7 (p : Pixel) (b : SBranch) :
    firedBranch p = some b ↔
      (sTest b p = true ∧ ∀ b2 : SBranch, sIdx b2 < sIdx b → sTest b2 p = false) := by
  cases b with
  | sandDev =>
      rw [fired_sand_iff]
      constructor
      · intro h
        exact ⟨h, fun b2 hb2 => absurd hb2 (by cases b2 <;> simp [sIdx])⟩
      · rintro ⟨h, _⟩
        exact h
  | veg =>
      rw [fired_veg_iff]
      constructor
      · rintro ⟨h1, h2⟩
        refine ⟨h2, ?_⟩
        intro b2 hb2
        cases b2
        · exact h1
        · exact absurd hb2 (by simp [sIdx])
        · exact absurd hb2 (by simp [sIdx])
        · exact absurd hb2 (by simp [sIdx])
        · exact absurd hb2 (by simp [sIdx])
      · rintro ⟨h1, h2⟩
        exact ⟨h2 SBranch.sandDev (by simp [sIdx]), h1⟩
  | waterGF =>
      rw [fired_water_iff]
      constructor
      · rintro ⟨h1, h2, h3⟩
        refine ⟨h3, ?_⟩
        intro b2 hb2
        cases b2
        · exact h1
        · exact h2
        · exact absurd hb2 (by simp [sIdx])
        · exact absurd hb2 (by simp [sIdx])
        · exact absurd hb2 (by simp [sIdx])
      · rintro ⟨h1, h2⟩
        exact ⟨h2 SBranch.sandDev (by simp [sIdx]), h2 SBranch.veg (by simp [sIdx]), h1⟩
  | glintA =>
      rw [fired_glintA_iff]
      constructor
      · rintro ⟨h1, h2, h3, h4⟩
        refine ⟨h4, ?_⟩
        intro b2 hb2
        cases b2
        · exact h1
        · exact h2
        · exact h3
        · exact absurd hb2 (by simp [sIdx])
        · exact absurd hb2 (by simp [sIdx])
      · rintro ⟨h1, h2⟩
        exact ⟨h2 SBranch.sandDev (by simp [sIdx]), h2 SBranch.veg (by simp [sIdx]),
          h2 SBranch.waterGF (by simp [sIdx]), h1⟩
  | glintB =>
      rw [fired_glintB_iff]
      constructor
      · rintro ⟨h1, h2, h3, h4, h5⟩
        refine ⟨h5, ?_⟩
        intro b2 hb2
        cases b2
        · exact h1
        · exact h2
        · exact h3
        · exact h4
        · exact absurd hb2 (by simp [sIdx])
      · rintro ⟨h1, h2⟩
        exact ⟨h2 SBranch.sandDev (by simp [sIdx]), h2 SBranch.veg (by simp [sIdx]),
          h2 SBranch.waterGF (by simp [sIdx]), h2 SBranch.glintA (by simp [sIdx]), h1⟩

/-- Witness for C7 at the concrete water pixel: the glint-free-water branch
fires, so its test holds and the sand and vegetation tests fail. -/
theorem claim_C7_witness :
    sTest SBranch.waterGF pixW = true ∧
      ∀ b2 : SBranch, sIdx b2 < sIdx SBranch.waterGF → sTest b2 pixW = false :=
  (claim_C7 pixW SBranch.waterGF).mp
    (by rw [firedBranch, sandTest_pixW, vegTest_pixW, waterTest_pixW]; rfl)

end WV2
